import Mathlib

/-!
Verification of the labs64.io-auditflow dispatch, retry and provisioning logic.

Shallow embedding of:
  - the retry-with-backoff delivery loop shared by
    `src/auditflow-sink/sinks/webhook_sink.py` (process, lines 73-124) and
    `src/auditflow-sink/sinks/netlicensing_sink.py`
    (NetLicensingClient._request, lines 372-411);
  - the plugin dispatch endpoints `src/auditflow-sink/sink.py` (sink) and
    `src/auditflow-transformer/transformer.py` (transform);
  - the NetLicensing provisioning workflow
    `src/auditflow-sink/sinks/netlicensing_sink.py` (process, _process_item,
    _create_licensee, _create_license).
-/

namespace AuditFlow

/-! ## Retrying delivery client

Both retry loops in the source are textually identical in discipline:
`for attempt in range(retry_count)`, the body attempts the network call,
`response.raise_for_status()` raises `requests.exceptions.HTTPError`
(a subclass of RequestException) for any 4xx or 5xx response, the single
`except requests.exceptions.RequestException` clause records the error as
`last_error`, sleeps `2 ** attempt` seconds when `attempt < retry_count - 1`,
and continues; after the loop a terminal RuntimeError carrying `last_error`
is raised.  The outcome of each attempt is abstracted as a function from the
attempt index. -/

/-- Outcome of one network attempt: a 2xx response with a parsed value, an
HTTP error status (4xx/5xx, raised by raise_for_status), or a transport-level
error (connection refused, timeout).  Both error forms are instances of
requests.exceptions.RequestException in the source. -/
inductive Attempt (α : Type) where
  | success (v : α)
  | httpError (status : Nat) (msg : String)
  | transportError (msg : String)
deriving DecidableEq

/-- The error message recorded as last_error, none for a success. -/
def Attempt.failMsg {α : Type} : Attempt α → Option String
  | .success _ => none
  | .httpError _ e => some e
  | .transportError e => some e

/-- Whether the attempt raises requests.exceptions.RequestException. -/
def Attempt.isFailure {α : Type} (a : Attempt α) : Bool :=
  a.failMsg.isSome

/-- Observable trace of one call through the retry loop: how many attempts
ran, the backoff sleeps (in seconds, in order), and the outcome.  A terminal
failure carries last_error (none only when retry_count = 0, where Python
would interpolate None into the RuntimeError message). -/
structure Trace (α : Type) where
  attempts : Nat
  sleeps : List Nat
  result : Except (Option String) α

/-- The retry loop, from attempt index i with fuel remaining attempts.
Mirrors the source loop: success returns immediately; a RequestException on
a non-final attempt sleeps 2^attempt and continues; on the final attempt the
loop ends and the terminal error carries the last cause. -/
def retryFrom {α : Type} (att : Nat → Attempt α) : Nat → Nat → Option String → Trace α
  | 0, _, last => ⟨0, [], .error last⟩
  | fuel + 1, i, _ =>
    match att i with
    | .success v => ⟨1, [], .ok v⟩
    | .httpError _ e =>
      if fuel = 0 then ⟨1, [], .error (some e)⟩
      else
        let t := retryFrom att fuel (i + 1) (some e)
        ⟨t.attempts + 1, 2 ^ i :: t.sleeps, t.result⟩
    | .transportError e =>
      if fuel = 0 then ⟨1, [], .error (some e)⟩
      else
        let t := retryFrom att fuel (i + 1) (some e)
        ⟨t.attempts + 1, 2 ^ i :: t.sleeps, t.result⟩

/-- One delivery call with the configured attempt budget
(`retry-count` property, default 3). -/
def retryRequest {α : Type} (att : Nat → Attempt α) (retryCount : Nat) : Trace α :=
  retryFrom att retryCount 0 none

/-- A failing attempt always has a recorded message. -/
theorem Attempt.isFailure_iff {α : Type} (a : Attempt α) :
    a.isFailure = true ↔ ∃ e, a.failMsg = some e := by
  cases a <;> simp [Attempt.isFailure, Attempt.failMsg]

/-- At least one attempt runs whenever fuel remains. -/
theorem retryFrom_attempts_pos {α : Type} (att : Nat → Attempt α) :
    ∀ (fuel i : Nat) (last : Option String), 1 ≤ fuel →
      1 ≤ (retryFrom att fuel i last).attempts := by
  intro fuel i last hfuel
  match fuel, hfuel with
  | fuel + 1, _ =>
    rw [retryFrom]
    cases att i with
    | success v => simp
    | httpError s e =>
      by_cases h : fuel = 0 <;> simp [h]
    | transportError e =>
      by_cases h : fuel = 0 <;> simp [h]

/-- If the first k attempts (counting from index i) fail and attempt i+k
succeeds, with k strictly below the remaining fuel, the loop returns the
success after exactly k+1 attempts with sleeps 2^i, ..., 2^(i+k-1). -/
theorem retryFrom_first_success {α : Type} (att : Nat → Attempt α) :
    ∀ (k fuel i : Nat) (last : Option String) (v : α),
      k < fuel →
      (∀ j, j < k → (att (i + j)).isFailure = true) →
      att (i + k) = .success v →
      retryFrom att fuel i last =
        ⟨k + 1, (List.range k).map (fun j => 2 ^ (i + j)), .ok v⟩ := by
  intro k
  induction k with
  | zero =>
    intro fuel i last v hk _ hsucc
    match fuel, hk with
    | fuel + 1, _ =>
      rw [retryFrom]
      simp only [Nat.add_zero] at hsucc
      rw [hsucc]
      simp
  | succ k ih =>
    intro fuel i last v hk hfail hsucc
    obtain ⟨fuel, rfl⟩ : ∃ f, fuel = f + 1 := ⟨fuel - 1, by omega⟩
    · have hfuel : k < fuel := by omega
      have h0 : (att i).isFailure = true := by
        have := hfail 0 (by omega)
        simpa using this
      have hfail' : ∀ j, j < k → (att (i + 1 + j)).isFailure = true := by
        intro j hj
        have := hfail (j + 1) (by omega)
        have harith : i + (j + 1) = i + 1 + j := by omega
        rwa [harith] at this
      have hsucc' : att (i + 1 + k) = .success v := by
        have harith : i + (k + 1) = i + 1 + k := by omega
        rwa [harith] at hsucc
      have hrec := ih fuel (i + 1) (some ((att i).failMsg.getD "")) v hfuel hfail' hsucc'
      have hlist : (List.range (k + 1)).map (fun j => 2 ^ (i + j)) =
          2 ^ i :: (List.range k).map (fun j => 2 ^ (i + 1 + j)) := by
        rw [List.range_succ_eq_map]
        simp only [List.map_cons, List.map_map, Nat.add_zero]
        congr 1
        apply List.map_congr_left
        intro j _
        exact congrArg (fun e => 2 ^ e) (by omega)
      rw [retryFrom]
      cases hatt : att i with
      | success w =>
        rw [hatt] at h0
        simp [Attempt.isFailure, Attempt.failMsg] at h0
      | httpError s e =>
        have hne : ¬ fuel = 0 := by omega
        simp only [hne, if_false]
        have hrec' := ih fuel (i + 1) (some e) v hfuel hfail' hsucc'
        rw [hrec']
        rw [hlist]
      | transportError e =>
        have hne : ¬ fuel = 0 := by omega
        simp only [hne, if_false]
        have hrec' := ih fuel (i + 1) (some e) v hfuel hfail' hsucc'
        rw [hrec']
        rw [hlist]

/-- If every attempt in the window [i, i + fuel) fails, the loop makes
exactly fuel attempts and ends in the terminal error carrying the message of
the last attempt (or the incoming last error when fuel = 0). -/
theorem retryFrom_all_fail {α : Type} (att : Nat → Attempt α) :
    ∀ (fuel i : Nat) (last : Option String),
      (∀ j, j < fuel → (att (i + j)).isFailure = true) →
      (retryFrom att fuel i last).attempts = fuel ∧
      (retryFrom att fuel i last).result =
        .error (if fuel = 0 then last else (att (i + fuel - 1)).failMsg) := by
  intro fuel
  induction fuel with
  | zero =>
    intro i last _
    simp [retryFrom]
  | succ fuel ih =>
    intro i last hfail
    have h0 : (att i).isFailure = true := by
      have := hfail 0 (by omega)
      simpa using this
    have hfail' : ∀ j, j < fuel → (att (i + 1 + j)).isFailure = true := by
      intro j hj
      have := hfail (j + 1) (by omega)
      have harith : i + (j + 1) = i + 1 + j := by omega
      rwa [harith] at this
    rw [retryFrom]
    cases hatt : att i with
    | success w =>
      rw [hatt] at h0
      simp [Attempt.isFailure, Attempt.failMsg] at h0
    | httpError s e =>
      by_cases hz : fuel = 0
      · subst hz
        simp [hatt, Attempt.failMsg]
      · have hrec := ih (i + 1) (some e) hfail'
        simp only [hz, if_false]
        refine ⟨by rw [hrec.1], ?_⟩
        rw [hrec.2]
        simp only [hz, if_false]
        have harith : i + 1 + fuel - 1 = i + (fuel + 1) - 1 := by omega
        rw [harith]
        simp
    | transportError e =>
      by_cases hz : fuel = 0
      · subst hz
        simp [hatt, Attempt.failMsg]
      · have hrec := ih (i + 1) (some e) hfail'
        simp only [hz, if_false]
        refine ⟨by rw [hrec.1], ?_⟩
        rw [hrec.2]
        simp only [hz, if_false]
        have harith : i + 1 + fuel - 1 = i + (fuel + 1) - 1 := by omega
        rw [harith]
        simp

/-- C3: for a delivery call through the retrying client that fails on the
first k attempts (k < maxAttempts) and succeeds on the next attempt, the
overall result is success, exactly k+1 attempts are made, and the sleeps
between consecutive attempts are 2^0, 2^1, ..., 2^(k-1) seconds in order. -/
theorem c3_retry_success_after_k_failures {α : Type} (att : Nat → Attempt α)
    (k retryCount : Nat) (v : α)
    (hk : k < retryCount)
    (hfail : ∀ j, j < k → (att j).isFailure = true)
    (hsucc : att k = .success v) :
    retryRequest att retryCount =
      ⟨k + 1, (List.range k).map (fun j => 2 ^ j), .ok v⟩ := by
  have h := retryFrom_first_success att k retryCount 0 none v hk
    (by intro j hj; simpa using hfail j hj) (by simpa using hsucc)
  rw [retryRequest, h]
  congr 1
  apply List.map_congr_left
  intro j _
  simp

/-- Attempt sequence witnessing C3: two transport failures, then success. -/
def c3att : Nat → Attempt Nat := fun i =>
  if i < 2 then .transportError ("connection refused " ++ toString i) else .success 42

/-- C3 witness: with two failures before success and budget 3, the trace is
3 attempts, sleeps [1, 2] and a success result. -/
theorem c3_witness : retryRequest c3att 3 = ⟨3, [1, 2], .ok 42⟩ := by
  have h := c3_retry_success_after_k_failures c3att 2 3 42 (by decide)
    (by decide) (by decide)
  rw [h]
  rfl

/-- C4: for a delivery call through the retrying client whose attempts all
fail (maxAttempts failures), the call raises a terminal delivery error
carrying the last underlying cause, and no more than maxAttempts attempts are
made in total. -/
theorem c4_retry_exhaustion {α : Type} (att : Nat → Attempt α) (retryCount : Nat)
    (h1 : 1 ≤ retryCount)
    (hfail : ∀ j, j < retryCount → (att j).isFailure = true) :
    (retryRequest att retryCount).result = .error ((att (retryCount - 1)).failMsg) ∧
    ((att (retryCount - 1)).failMsg).isSome = true ∧
    (retryRequest att retryCount).attempts ≤ retryCount := by
  have h := retryFrom_all_fail att retryCount 0 none
    (by intro j hj; simpa using hfail j hj)
  have hz : ¬ retryCount = 0 := by omega
  refine ⟨?_, ?_, ?_⟩
  · rw [retryRequest, h.2]
    simp [hz]
  · have := hfail (retryCount - 1) (by omega)
    simpa [Attempt.isFailure] using this
  · rw [retryRequest, h.1]

/-- Attempt sequence witnessing C4: every attempt is a 5xx failure. -/
def c4att : Nat → Attempt Nat := fun i =>
  .httpError 500 ("server error " ++ toString i)

/-- C4 witness: with budget 3 and all attempts failing, the terminal error
carries the third (last) cause and at most 3 attempts are made. -/
theorem c4_witness :
    (retryRequest c4att 3).result = .error (some "server error 2") ∧
    (retryRequest c4att 3).attempts ≤ 3 := by
  have h := c4_retry_exhaustion c4att 3 (by decide) (by decide)
  refine ⟨?_, h.2.2⟩
  rw [h.1]
  rfl

/-- Attempt sequence for the C2 counterexample: the first attempt yields an
HTTP 404 client error (non-retryable per the claim), the next succeeds. -/
def c2att : Nat → Attempt Nat := fun i =>
  if i = 0 then .httpError 404 "404 Client Error" else .success 7

/-- C2 counterexample: with budget 3, a first-attempt 4xx client error does
NOT fail immediately — the loop sleeps one second, retries, and the call
succeeds on the second attempt.  This contradicts the claim that a 4xx
failure short-circuits without any further attempts: the source catches all
requests.exceptions.RequestException uniformly, and raise_for_status raises
HTTPError for 4xx exactly as for 5xx. -/
theorem c2_counterexample :
    c2att 0 = .httpError 404 "404 Client Error" ∧
    retryRequest c2att 3 = ⟨2, [1], .ok 7⟩ := by
  exact ⟨rfl, rfl⟩

/-- C2 amended: a 4xx client-error response is classified and retried
exactly like any other RequestException; whenever budget remains after a
first-attempt 4xx, at least one further attempt is made (no plugin treats
any code specially, and no failure short-circuits the attempt budget). -/
theorem c2_amended_4xx_retried {α : Type} (att : Nat → Attempt α)
    (s : Nat) (e : String) (retryCount : Nat)
    (h4a : 400 ≤ s) (h4b : s < 500)
    (hatt : att 0 = .httpError s e)
    (hrc : 2 ≤ retryCount) :
    2 ≤ (retryRequest att retryCount).attempts := by
  obtain ⟨f, rfl⟩ : ∃ f, retryCount = f + 2 := ⟨retryCount - 2, by omega⟩
  · show 2 ≤ (retryFrom att (f + 1 + 1) 0 none).attempts
    rw [retryFrom, hatt]
    dsimp only
    have hne : ¬ (f + 1) = 0 := Nat.succ_ne_zero f
    simp only [hne, if_false]
    show 2 ≤ (retryFrom att (f + 1) 1 (some e)).attempts + 1
    have hpos := retryFrom_attempts_pos att (f + 1) 1 (some e) (by omega)
    omega

/-- Attempt sequence witnessing the amended C2: a 429, then successes. -/
def c2attW : Nat → Attempt Nat := fun i =>
  if i = 0 then .httpError 429 "too many requests" else .success 1

/-- Amended-C2 witness: after a first-attempt 429 with budget 3, a second
attempt is made. -/
theorem c2_amended_witness : 2 ≤ (retryRequest c2attW 3).attempts :=
  c2_amended_4xx_retried c2attW 429 "too many requests" 3 (by decide)
    (by decide) (by rfl) (by decide)

/-! ## Dispatch service

Shallow embedding of the two FastAPI endpoints.  Python module resolution
via importlib over the configured search paths is abstracted as a resolver
function from the plugin identifier to one of the outcomes the source
distinguishes: ModuleNotFoundError, another import-time exception, a module
without the required entry function, or a loaded plugin callable. -/

/-- JSON-representable value (the generic event envelope / result shape). -/
inductive JVal where
  | null
  | bool (b : Bool)
  | num (n : Int)
  | str (s : String)
  | arr (xs : List JVal)
  | obj (fs : List (String × JVal))

/-- Python truthiness of a JSON value, as used by
`result if result else "Event sent to destination"` in sink.py. -/
def JVal.truthy : JVal → Bool
  | .null => false
  | .bool b => b
  | .num n => n != 0
  | .str s => s != ""
  | .arr xs => !xs.isEmpty
  | .obj fs => !fs.isEmpty

/-- Field lookup on a JSON object (none for non-objects/absent keys). -/
def JVal.getField : JVal → String → Option JVal
  | .obj fs, k => (fs.find? (fun p => p.1 == k)).map (fun p => p.2)
  | _, _ => none

/-- A sink plugin entry function: process(event_data, properties), either
returning a result value or raising an exception with a message. -/
def SinkFn : Type := JVal → JVal → Except String JVal

/-- A transformer plugin entry function: transform(json_data). -/
def TransformFn : Type := JVal → Except String JVal

/-- Outcome of resolving a plugin identifier against the search paths. -/
inductive Resolution (F : Type) where
  | notFound
  | loadFailed (msg : String)
  | noEntryFn
  | plugin (f : F)

/-- An HTTP response from a dispatch endpoint, together with whether any
plugin entry function was invoked while producing it. -/
structure HttpResponse where
  status : Nat
  body : JVal
  invoked : Bool

/-- The 404 diagnostic of sink.py for an unknown sink id. -/
def sinkNotFoundDetail (sinkId : String) : String :=
  "Sink module not found for ID: \x27" ++ sinkId ++
    ("\x27. Please ensure " ++ sinkId ++ ".py exists in sinks/ or sinks_bootstrap/ directory.")

/-- The success envelope of sink.py: a falsy plugin result is replaced by
the placeholder string (source: result if result else "Event sent to
destination"). -/
def sinkEnvelope (sinkId : String) (result : JVal) : JVal :=
  .obj [("status", .str "success"),
        ("sink", .str sinkId),
        ("message", .str ("Event processed successfully by sink \x27" ++ sinkId ++ "\x27")),
        ("result", if result.truthy then result else .str "Event sent to destination")]

/-- The sink dispatch endpoint (sink.py, POST /sink/sink_id).  `properties`
defaults to an empty mapping when omitted. -/
def sinkDispatch (resolve : String → Resolution SinkFn) (sinkId : String)
    (eventData : JVal) (properties : Option JVal) : HttpResponse :=
  match resolve sinkId with
  | .notFound =>
    ⟨404, .obj [("detail", .str (sinkNotFoundDetail sinkId))], false⟩
  | .loadFailed e =>
    ⟨500, .obj [("detail", .str ("Failed to load sink module \x27" ++ sinkId ++ "\x27: " ++ e))], false⟩
  | .noEntryFn =>
    ⟨500, .obj [("detail", .str ("Process function \x27process\x27 not found in sink module \x27" ++
      sinkId ++ ("\x27. Each sink must implement a \x27process(event_data, properties)\x27 function.")))], false⟩
  | .plugin f =>
    match f eventData (properties.getD (.obj [])) with
    | .ok r => ⟨200, sinkEnvelope sinkId r, true⟩
    | .error e =>
      ⟨500, .obj [("detail", .str ("An unexpected error occurred while processing event through sink \x27" ++
        sinkId ++ ("\x27: " ++ e)))], true⟩

/-- The 404 diagnostic of transformer.py for an unknown transformer id. -/
def transformNotFoundDetail (transformerId : String) : String :=
  "Transformation module not found for ID: \x27" ++ transformerId ++ "\x27!"

/-- The transformer dispatch endpoint (transformer.py,
POST /transform/transformer_id); transform results are returned as the
bare transformed payload. -/
def transformDispatch (resolve : String → Resolution TransformFn)
    (transformerId : String) (jsonData : JVal) : HttpResponse :=
  match resolve transformerId with
  | .notFound =>
    ⟨404, .obj [("detail", .str (transformNotFoundDetail transformerId))], false⟩
  | .loadFailed e =>
    ⟨500, .obj [("detail", .str ("Failed to load transformation for ID \x27" ++
      transformerId ++ ("\x27: " ++ e)))], false⟩
  | .noEntryFn =>
    ⟨500, .obj [("detail", .str ("Transformation function \x27transform\x27 not found in module for ID: \x27" ++
      transformerId ++ "\x27. "))], false⟩
  | .plugin f =>
    match f jsonData with
    | .ok r => ⟨200, r, true⟩
    | .error e =>
      ⟨500, .obj [("detail", .str ("An unexpected error occurred while processing event through transformer \x27" ++
        transformerId ++ ("\x27: " ++ e)))], true⟩

/-- C9: an unresolvable plugin identifier yields a 404 NotFound response
whose diagnostic names the missing identifier, and no plugin entry function
is ever invoked; this holds for the sink endpoint and for the transformer
endpoint. -/
theorem c9_unknown_plugin_404 (resolveS : String → Resolution SinkFn)
    (resolveT : String → Resolution TransformFn) (sinkId transformerId : String)
    (eventData jsonData : JVal) (properties : Option JVal)
    (hs : resolveS sinkId = .notFound) (ht : resolveT transformerId = .notFound) :
    sinkDispatch resolveS sinkId eventData properties =
      ⟨404, .obj [("detail", .str (sinkNotFoundDetail sinkId))], false⟩ ∧
    (∃ pre post, sinkNotFoundDetail sinkId = pre ++ sinkId ++ post) ∧
    transformDispatch resolveT transformerId jsonData =
      ⟨404, .obj [("detail", .str (transformNotFoundDetail transformerId))], false⟩ ∧
    (∃ pre post, transformNotFoundDetail transformerId = pre ++ transformerId ++ post) := by
  refine ⟨?_, ?_, ?_, ?_⟩
  · rw [sinkDispatch, hs]
  · exact ⟨"Sink module not found for ID: \x27",
      "\x27. Please ensure " ++ sinkId ++ ".py exists in sinks/ or sinks_bootstrap/ directory.", rfl⟩
  · rw [transformDispatch, ht]
  · exact ⟨"Transformation module not found for ID: \x27", "\x27!", rfl⟩

/-- A resolver with no sink plugins at all. -/
def emptySinkResolver : String → Resolution SinkFn := fun _ => .notFound

/-- A resolver with no transformer plugins at all. -/
def emptyTransformResolver : String → Resolution TransformFn := fun _ => .notFound

/-- C9 witness: dispatching the unknown id "nosuch" returns 404 without
invoking anything, on both endpoints. -/
theorem c9_witness :
    sinkDispatch emptySinkResolver "nosuch" (.obj []) none =
      ⟨404, .obj [("detail", .str (sinkNotFoundDetail "nosuch"))], false⟩ ∧
    (∃ pre post, sinkNotFoundDetail "nosuch" = pre ++ "nosuch" ++ post) ∧
    transformDispatch emptyTransformResolver "nosuch" (.obj []) =
      ⟨404, .obj [("detail", .str (transformNotFoundDetail "nosuch"))], false⟩ ∧
    (∃ pre post, transformNotFoundDetail "nosuch" = pre ++ "nosuch" ++ post) :=
  c9_unknown_plugin_404 emptySinkResolver emptyTransformResolver "nosuch" "nosuch"
    (.obj []) (.obj []) none rfl rfl

/-- A sink plugin that succeeds with an empty (falsy) result object. -/
def emptyResultPlugin : SinkFn := fun _ _ => .ok (.obj [])

/-- A resolver exposing only the empty-result plugin. -/
def emptyResultResolver : String → Resolution SinkFn := fun _ => .plugin emptyResultPlugin

/-- C7 counterexample: a sink plugin invocation succeeds returning the empty
object, but the response envelope carries the placeholder string "Event sent
to destination" in its result field instead of the plugin return value
(source: result if result else "Event sent to destination").  So the result
does NOT appear unchanged for every possible plugin return value. -/
theorem c7_counterexample :
    emptyResultPlugin (.obj []) (.obj []) = .ok (.obj []) ∧
    (sinkDispatch emptyResultResolver "demo" (.obj []) none).status = 200 ∧
    (sinkDispatch emptyResultResolver "demo" (.obj []) none).body.getField "result" =
      some (.str "Event sent to destination") ∧
    some (JVal.str "Event sent to destination") ≠ some (JVal.obj []) := by
  refine ⟨rfl, rfl, rfl, ?_⟩
  intro h
  exact JVal.noConfusion (Option.some.inj h)

/-- C7 amended: whenever a sink plugin invocation succeeds with a truthy
(non-empty, non-null, non-zero) result, that value appears unchanged in the
result field of the success envelope; a falsy result is replaced by the
placeholder string "Event sent to destination". -/
theorem c7_result_passthrough (resolve : String → Resolution SinkFn)
    (sinkId : String) (f : SinkFn) (eventData : JVal) (properties : Option JVal)
    (r : JVal)
    (hres : resolve sinkId = .plugin f)
    (hrun : f eventData (properties.getD (.obj [])) = .ok r)
    (htru : r.truthy = true) :
    (sinkDispatch resolve sinkId eventData properties).status = 200 ∧
    (sinkDispatch resolve sinkId eventData properties).invoked = true ∧
    (sinkDispatch resolve sinkId eventData properties).body.getField "result" = some r := by
  have hd : sinkDispatch resolve sinkId eventData properties =
      ⟨200, sinkEnvelope sinkId r, true⟩ := by
    rw [sinkDispatch, hres]
    simp only [hrun]
  rw [hd]
  refine ⟨rfl, rfl, ?_⟩
  rw [sinkEnvelope]
  simp only [htru, if_true]
  rfl

/-- A sink plugin returning a truthy delivery result. -/
def sentPlugin : SinkFn := fun _ _ => .ok (.obj [("sent", .bool true)])

/-- A resolver exposing only sentPlugin. -/
def sentResolver : String → Resolution SinkFn := fun _ => .plugin sentPlugin

/-- Amended-C7 witness: a truthy plugin result is passed through unchanged
in the success envelope. -/
theorem c7_witness :
    (sinkDispatch sentResolver "demo" (.obj []) none).status = 200 ∧
    (sinkDispatch sentResolver "demo" (.obj []) none).invoked = true ∧
    (sinkDispatch sentResolver "demo" (.obj []) none).body.getField "result" =
      some (.obj [("sent", .bool true)]) :=
  c7_result_passthrough sentResolver "demo" sentPlugin (.obj []) none
    (.obj [("sent", .bool true)]) rfl rfl rfl

/-! ## NetLicensing provisioning workflow

Shallow embedding of netlicensing_sink.py.  Python dict lookups with
defaults become Option fields; Python truthiness of strings ("" is falsy)
and of dicts (empty is falsy) is modelled explicitly.  The NetLicensing
backend (reached through NetLicensingClient) is abstracted as a record of
response functions; the client state records every entity created, every
licensee fetched, and a call counter used to hand fresh backend-assigned
numbers to creations.  Constant response fields of the source
("destination": "netlicensing", "processed") are implied by the result
constructors; list(set(...)) dedup of licensee numbers is modelled as
first-occurrence dedup, which has the same element count. -/

/-- Python str.lower(), computably over the character list. -/
def lowerStr (s : String) : String := String.mk (s.data.map Char.toLower)

/-- Python str.endswith(suffix), computably over the character list. -/
def strEndsWith (s suffix : String) : Bool := suffix.data.isSuffixOf s.data

/-- Python str.startswith(pre), computably over the character list. -/
def strStartsWith (s pre : String) : Bool := pre.data.isPrefixOf s.data

/-- Decimal digit value of a character. -/
def digitVal (c : Char) : Option Nat :=
  let n := c.toNat
  if 48 ≤ n ∧ n ≤ 57 then some (n - 48) else none

/-- Parse a non-empty run of decimal digits. -/
def parseNatDigits : List Char → Option Nat → Option Nat
  | [], acc => acc
  | c :: cs, acc =>
    match digitVal c, acc with
    | some d, some a => parseNatDigits cs (some (a * 10 + d))
    | some d, none => parseNatDigits cs (some d)
    | none, _ => none

/-- Python int(s) on a decimal string with optional leading minus
(surrounding whitespace tolerance not modelled). -/
def pyInt (s : String) : Option Int :=
  match s.data with
  | '-' :: cs => (parseNatDigits cs none).map (fun n => -(n : Int))
  | cs => (parseNatDigits cs none).map (fun n => (n : Int))

/-- Python str.strip() whitespace class (the ones that occur here). -/
def isSpaceChar (c : Char) : Bool :=
  c == ' ' || c == '\t' || c == '\n' || c == '\r'

/-- Python str.strip(), computably over the character list. -/
def pyStrip (s : String) : String :=
  String.mk (((s.data.dropWhile isSpaceChar).reverse.dropWhile isSpaceChar).reverse)

/-- Comma-space join, as json.dumps uses between entries. -/
def joinPairs : List String → String
  | [] => ""
  | [x] => x
  | x :: xs => x ++ ", " ++ joinPairs xs

/-- Python `a or b` on an optional string: a falsy left operand (absent key
or empty string) falls through to the right operand. -/
def pyOr (a b : Option String) : Option String :=
  match a with
  | some s => if s = "" then b else some s
  | none => b

/-- Python `a or b` where the right operand is already a plain string. -/
def pyOrStr (a : Option String) (b : String) : String :=
  match a with
  | some s => if s = "" then b else s
  | none => b

/-- Python truthiness of an optional string. -/
def truthyS : Option String → Bool
  | none => false
  | some s => s != ""

/-- Python f-string rendering of a possibly-absent value (str(None)). -/
def pyStrOpt : Option String → String
  | none => "None"
  | some s => s

/-- Python dict item assignment: update in place or append. -/
def setProp (ps : List (String × String)) (k v : String) : List (String × String) :=
  if ps.any (fun p => p.1 == k) then
    ps.map (fun p => if p.1 == k then (k, v) else p)
  else ps ++ [(k, v)]

/-- json.dumps of a flat string dict (string escaping not modelled). -/
def jsonPairs (ps : List (String × String)) : String :=
  "\x7b" ++ joinPairs
    (ps.map (fun p => "\"" ++ p.1 ++ "\": \"" ++ p.2 ++ "\"")) ++ "\x7d"

/-- The per-item extra mapping read by the sink. -/
structure ItemExtra where
  productNumber : Option String := none
  licenseTemplateNumber : Option String := none
  licenseeNumber : Option String := none
  startDate : Option String := none
  endDate : Option String := none
  maxSessions : Option String := none
  maxCheckouts : Option String := none
deriving DecidableEq

/-- A purchase-order line item. -/
structure Item where
  name : Option String := none
  sku : Option String := none
  quantity : Option Nat := none
  extra : ItemExtra := {}
deriving DecidableEq

/-- The purchase-order customer record. -/
structure Customer where
  id : Option String := none
  firstName : Option String := none
  lastName : Option String := none
  email : Option String := none
  phone : Option String := none
deriving DecidableEq

/-- The transaction billing info record. -/
structure BillingInfo where
  firstName : Option String := none
  lastName : Option String := none
  email : Option String := none
  country : Option String := none
  city : Option String := none
deriving DecidableEq

/-- The purchase order inside a checkout transaction. -/
structure PurchaseOrder where
  id : Option String := none
  currency : Option String := none
  customer : Option Customer := none
  items : List Item := []
deriving DecidableEq

/-- A checkout transaction (input-only). -/
structure Transaction where
  id : Option String := none
  status : Option String := none
  paymentMethod : Option String := none
  billingInfo : Option BillingInfo := none
  purchaseOrder : Option PurchaseOrder := none
deriving DecidableEq

/-- The audit event fields the sink reads.  transaction = none models an
absent extra mapping, an absent transaction key, or an empty transaction
dict (all falsy in the source check `if not transaction`). -/
structure EventData where
  eventType : Option String := none
  transaction : Option Transaction := none
deriving DecidableEq

/-- A licensee as fetched from the backend, after _parse_item flattening:
its number and the number of its associated product (the nested product
sub-group), none when the response lacks one. -/
structure Licensee where
  number : String
  productNumber : Option String := none
deriving DecidableEq

/-- A license template as fetched from the backend (licenseType field). -/
structure LicenseTemplate where
  licenseType : Option String := none
deriving DecidableEq

/-- Record of a licensee created against the backend. -/
structure CreatedLicensee where
  number : String
  productNumber : String
  props : List (String × String)
deriving DecidableEq

/-- Record of a license created against the backend. -/
structure CreatedLicense where
  number : String
  licenseeNumber : String
  templateNumber : String
  props : List (String × String)
deriving DecidableEq

/-- Observable state of the backend client across one provisioning run. -/
structure ClientState where
  counter : Nat
  licensees : List CreatedLicensee
  licenses : List CreatedLicense
  gets : List String
deriving DecidableEq

/-- The empty initial client state. -/
def ClientState.init : ClientState := ⟨0, [], [], []⟩

/-- The NetLicensing backend, abstracted: lookups are response functions,
creations map the client call counter to the assigned number or a failure.
Every failure string stands for the exception the client would raise. -/
structure Backend where
  getLicensee : String → Except String Licensee
  getLicenseTemplate : String → Except String LicenseTemplate
  createLicensee : Nat → Except String String
  createLicense : Nat → Except String String

/-- client.get_licensee: records the fetch, returns the backend response. -/
def clientGetLicensee (B : Backend) (ln : String) (st : ClientState) :
    Except String Licensee × ClientState :=
  (B.getLicensee ln, { st with gets := st.gets ++ [ln] })

/-- client.create_licensee: on success, records the created licensee with
its product association and properties. -/
def clientCreateLicensee (B : Backend) (pn : String) (ps : List (String × String))
    (st : ClientState) : Except String String × ClientState :=
  match B.createLicensee st.counter with
  | .error e => (.error e, { st with counter := st.counter + 1 })
  | .ok num => (.ok num,
      { st with counter := st.counter + 1, licensees := st.licensees ++ [⟨num, pn, ps⟩] })

/-- client.create_license: on success, records the created license with its
owning licensee, template and properties. -/
def clientCreateLicense (B : Backend) (ln tn : String) (ps : List (String × String))
    (st : ClientState) : Except String String × ClientState :=
  match B.createLicense st.counter with
  | .error e => (.error e, { st with counter := st.counter + 1 })
  | .ok num => (.ok num,
      { st with counter := st.counter + 1, licenses := st.licenses ++ [⟨num, ln, tn, ps⟩] })

/-- The flat string property map required of the sink (Delivery
Properties), keyed as in the request. -/
def Props : Type := List (String × String)

/-- properties.get(key): first matching entry. -/
def pgetOpt (ps : Props) (k : String) : Option String :=
  (ps.find? (fun p => p.1 == k)).map (fun p => p.2)

/-- properties.get(key, default). -/
def pget (ps : Props) (k d : String) : String :=
  (pgetOpt ps k).getD d

/-- A per-item error entry as recorded in the errors list of process. -/
structure ItemError where
  sku : Option String
  name : Option String
  error : String
deriving DecidableEq

/-- An error terminating process: a ValueError, or the final RuntimeError
listing every per-item error (its message interpolates that list). -/
inductive PError where
  | valueError (msg : String)
  | allItemsFailed (errors : List ItemError)
deriving DecidableEq

/-- The result dict of process: a no-op skip (processed False with reason)
or a success (processed True) carrying the transaction id, the deduplicated
licensee numbers, the license numbers, and the per-item errors (the source
stores None for an empty error list). -/
inductive ProcessResult where
  | noop (reason : String)
  | success (transactionId : Option String) (licenseeNumbers : List String)
      (licenseNumbers : List String) (errors : List ItemError)
deriving DecidableEq

/-- int(s) for a configuration value. -/
def pint (s : String) : Except PError Int :=
  match pyInt s with
  | some n => .ok n
  | none => .error (.valueError ("invalid literal for int() with base 10: " ++ s))

/-- The configuration read from the properties at the top of process. -/
structure Config where
  apiKey : String
  baseUrl : String
  defaultProductNumber : Option String
  defaultLicenseTemplate : Option String
  quantityToLicensee : Bool
  markForTransfer : Bool
  saveTransactionData : Bool
  timeout : Int
  retryCount : Int
deriving DecidableEq

/-- Property validation and parsing, in source order: missing or empty
api-key raises ValueError; base-url gains a trailing slash; the boolean
flags compare the lowered string to "true"; timeout and retry-count pass
through int(). -/
def parseConfig (props : Props) : Except PError Config :=
  let apiKey := pgetOpt props "api-key"
  if truthyS apiKey = false then
    .error (.valueError "Missing required property: \x27api-key\x27")
  else
    let rawBase := pget props "base-url" "https://go.netlicensing.io/core/v2/rest/"
    let baseUrl := if strEndsWith rawBase "/" then rawBase else rawBase ++ "/"
    match pint (pget props "timeout" "30") with
    | .error e => .error e
    | .ok t =>
      match pint (pget props "retry-count" "3") with
      | .error e => .error e
      | .ok r =>
        .ok { apiKey := apiKey.getD "",
              baseUrl := baseUrl,
              defaultProductNumber := pgetOpt props "product-number",
              defaultLicenseTemplate := pgetOpt props "license-template-number",
              quantityToLicensee := lowerStr (pget props "quantity-to-licensee" "false") == "true",
              markForTransfer := lowerStr (pget props "mark-for-transfer" "true") == "true",
              saveTransactionData := lowerStr (pget props "save-transaction-data" "true") == "true",
              timeout := t,
              retryCount := r }

/-- json.dumps of the transaction metadata stamped onto a licensee when
save-transaction-data is enabled (_create_licensee). -/
def checkoutDataJson (tx : Transaction) (po : Option PurchaseOrder)
    (billing : Option BillingInfo) : String :=
  jsonPairs [("transactionId", tx.id.getD ""),
             ("purchaseOrderId", (po.bind PurchaseOrder.id).getD ""),
             ("paymentMethod", tx.paymentMethod.getD ""),
             ("currency", (po.bind PurchaseOrder.currency).getD ""),
             ("billingCountry", (billing.bind BillingInfo.country).getD ""),
             ("billingCity", (billing.bind BillingInfo.city).getD "")]

/-- The properties dict built by _create_licensee: name derived from
customer/billing first+last name, falling back to email, falling back to
"Unknown Customer", plus the optional flags and metadata. -/
def licenseeProperties (cfg : Config) (customer : Option Customer)
    (billing : Option BillingInfo) (tx : Transaction)
    (po : Option PurchaseOrder) : List (String × String) :=
  let firstName := pyOrStr (customer.bind Customer.firstName)
    ((billing.bind BillingInfo.firstName).getD "")
  let lastName := pyOrStr (customer.bind Customer.lastName)
    ((billing.bind BillingInfo.lastName).getD "")
  let email := pyOrStr (customer.bind Customer.email)
    ((billing.bind BillingInfo.email).getD "")
  let fullName := pyStrip (firstName ++ " " ++ lastName)
  let licenseeName :=
    if fullName != "" then fullName
    else if email != "" then email
    else "Unknown Customer"
  let ps := [("active", "true"), ("name", licenseeName)]
  let ps := if cfg.markForTransfer then ps ++ [("markedForTransfer", "true")] else ps
  let ps := if email != "" then ps ++ [("email", email)] else ps
  let ps := match customer.bind Customer.id with
    | some i => if i != "" then ps ++ [("customerId", i)] else ps
    | none => ps
  let ps := match customer.bind Customer.phone with
    | some p => if p != "" then ps ++ [("phone", p)] else ps
    | none => ps
  if cfg.saveTransactionData then
    ps ++ [("checkoutData", checkoutDataJson tx po billing)]
  else ps

/-- The properties dict built by _create_license: active, a startDate of
"now" when the fetched template is a TIMEVOLUME type (a failed template
fetch is swallowed), then the allow-listed per-item overrides copied from
the item extra whenever the key is present. -/
def licenseProperties (tmpl : Except String LicenseTemplate) (e : ItemExtra) :
    List (String × String) :=
  let ps := [("active", "true")]
  let ps := match tmpl with
    | .ok t => if t.licenseType.getD "" == "TIMEVOLUME" then setProp ps "startDate" "now" else ps
    | .error _ => ps
  let ps := match e.startDate with | some v => setProp ps "startDate" v | none => ps
  let ps := match e.endDate with | some v => setProp ps "endDate" v | none => ps
  let ps := match e.maxSessions with | some v => setProp ps "maxSessions" v | none => ps
  match e.maxCheckouts with | some v => setProp ps "maxCheckouts" v | none => ps

/-- _create_license: fetch the template, assemble properties, create. -/
def createOneLicense (B : Backend) (licNum tn : String) (item : Item)
    (st : ClientState) : Except String String × ClientState :=
  clientCreateLicense B licNum tn
    (licenseProperties (B.getLicenseTemplate tn) item.extra) st

/-- The licensee resolution at the top of each unit of quantity:
`if licensee is None or quantity_to_licensee:` create a new licensee
(reporting created = true), otherwise reuse the held licensee number. -/
def licenseeStep (B : Backend) (pn : String) (ps : List (String × String))
    (qtl : Bool) (cur : Option String) (st : ClientState) :
    Except String (String × Bool) × ClientState :=
  match cur with
  | none =>
    match clientCreateLicensee B pn ps st with
    | (.ok n, st') => (.ok (n, true), st')
    | (.error e, st') => (.error e, st')
  | some n =>
    if qtl then
      match clientCreateLicensee B pn ps st with
      | (.ok m, st') => (.ok (m, true), st')
      | (.error e, st') => (.error e, st')
    else (.ok (n, false), st)

/-- The per-item result of _process_item: the licensee numbers created for
this item and the license numbers created (one per unit of quantity). -/
structure ItemResult where
  licensees : List String
  licenses : List String
deriving DecidableEq

/-- The `for i in range(quantity)` loop of _process_item: resolve or create
the licensee, create one license against it, accumulate; any client
exception aborts the item (already-performed creations persist). -/
def processUnits (B : Backend) (qtl : Bool) (leeProps : List (String × String))
    (pn tn : String) (item : Item) :
    Nat → Option String → ClientState → List String → List String →
    Except String ItemResult × ClientState
  | 0, _, st, accLees, accLics => (.ok ⟨accLees, accLics⟩, st)
  | q + 1, cur, st, accLees, accLics =>
    match licenseeStep B pn leeProps qtl cur st with
    | (.error e, st') => (.error e, st')
    | (.ok (num, created), st') =>
      match createOneLicense B num tn item st' with
      | (.error e, st'') => (.error e, st'')
      | (.ok licNum, st'') =>
        processUnits B qtl leeProps pn tn item q (some num) st''
          (if created then accLees ++ [num] else accLees) (accLics ++ [licNum])

/-- _process_item: resolve product and template numbers (item extra first,
then configured defaults; missing either is a per-item error), optionally
fetch a referenced existing licensee (discarded on fetch failure or when it
belongs to a different product), then run the per-unit loop. -/
def processItem (B : Backend) (cfg : Config) (customer : Option Customer)
    (billing : Option BillingInfo) (tx : Transaction)
    (po : Option PurchaseOrder) (item : Item) (st : ClientState) :
    Except String ItemResult × ClientState :=
  let pnO := pyOr item.extra.productNumber cfg.defaultProductNumber
  let tnO := pyOr item.extra.licenseTemplateNumber cfg.defaultLicenseTemplate
  if truthyS pnO = false then
    (.error ("No product number for item: " ++ pyStrOpt item.name), st)
  else if truthyS tnO = false then
    (.error ("No license template number for item: " ++ pyStrOpt item.name), st)
  else
    let pn := pnO.getD ""
    let tn := tnO.getD ""
    let q := item.quantity.getD 1
    let fetched :=
      if truthyS item.extra.licenseeNumber && !cfg.quantityToLicensee then
        match clientGetLicensee B (item.extra.licenseeNumber.getD "") st with
        | (.ok l, st') =>
          if l.productNumber ≠ some pn then (none, st') else (some l.number, st')
        | (.error _, st') => (none, st')
      else (none, st)
    processUnits B cfg.quantityToLicensee
      (licenseeProperties cfg customer billing tx po) pn tn item
      q fetched.1 fetched.2 [] []

/-- The per-item loop of process: each item is isolated; a failure is
recorded as an error entry (sku, name, message) and the loop continues. -/
def processItems (B : Backend) (cfg : Config) (customer : Option Customer)
    (billing : Option BillingInfo) (tx : Transaction)
    (po : Option PurchaseOrder) :
    List Item → ClientState →
    List String × List String × List ItemError × ClientState
  | [], st => ([], [], [], st)
  | item :: rest, st =>
    match processItem B cfg customer billing tx po item st with
    | (.ok r, st') =>
      let t := processItems B cfg customer billing tx po rest st'
      (r.licensees ++ t.1, r.licenses ++ t.2.1, t.2.2.1, t.2.2.2)
    | (.error e, st') =>
      let t := processItems B cfg customer billing tx po rest st'
      (t.1, t.2.1, ⟨item.sku, item.name, e⟩ :: t.2.2.1, t.2.2.2)

/-- process (netlicensing_sink.py): validate properties, gate on the event
type and transaction status, validate the purchase order, run the per-item
loop, and aggregate: raise when there are errors and no created licensees,
otherwise return the success result. -/
def process (B : Backend) (event : EventData) (props : Props)
    (st : ClientState) : Except PError ProcessResult × ClientState :=
  match parseConfig props with
  | .error e => (.error e, st)
  | .ok cfg =>
    let eventType := event.eventType.getD ""
    if strStartsWith eventType "checkout.transaction" then
      match event.transaction with
      | none => (.error (.valueError "Missing \x27transaction\x27 in event extra data"), st)
      | some tx =>
        let status := tx.status.getD ""
        if status = "COMPLETED" then
          let po := tx.purchaseOrder
          let customer := po.bind PurchaseOrder.customer
          let items := (po.map PurchaseOrder.items).getD []
          let billing := tx.billingInfo
          if items.isEmpty then
            (.error (.valueError "Purchase order has no items"), st)
          else
            let t := processItems B cfg customer billing tx po items st
            if !t.2.2.1.isEmpty && t.1.isEmpty then
              (.error (.allItemsFailed t.2.2.1), t.2.2.2)
            else
              (.ok (.success tx.id t.1.dedup t.2.1 t.2.2.1), t.2.2.2)
        else
          (.ok (.noop ("Transaction status \x27" ++ status ++ "\x27 is not COMPLETED")), st)
    else
      (.ok (.noop ("Event type \x27" ++ eventType ++ "\x27 is not a checkout transaction event")), st)

/-- Reduction of process past the property, event-type, transaction and
status gates to the per-item loop and the aggregate step. -/
theorem process_completed (B : Backend) (event : EventData) (props : Props)
    (cfg : Config) (st : ClientState) (tx : Transaction)
    (hcfg : parseConfig props = .ok cfg)
    (hev : strStartsWith (event.eventType.getD "") "checkout.transaction" = true)
    (htx : event.transaction = some tx)
    (hst : tx.status.getD "" = "COMPLETED")
    (hitems : ((tx.purchaseOrder.map PurchaseOrder.items).getD []).isEmpty = false) :
    process B event props st =
      (let t := processItems B cfg (tx.purchaseOrder.bind PurchaseOrder.customer)
          tx.billingInfo tx tx.purchaseOrder
          ((tx.purchaseOrder.map PurchaseOrder.items).getD []) st
       if !t.2.2.1.isEmpty && t.1.isEmpty then
         (.error (.allItemsFailed t.2.2.1), t.2.2.2)
       else
         (.ok (.success tx.id t.1.dedup t.2.1 t.2.2.1), t.2.2.2)) := by
  rw [process, hcfg]
  simp only [hev, if_true, htx, hst, hitems]
  simp [hitems]

/-- Shared concrete backend for witnesses: lookups fail, creations assign
L0, L1, ... and N0, N1, ... from the call counter. -/
def demoBackend : Backend :=
  { getLicensee := fun _ => .error "not found",
    getLicenseTemplate := fun _ => .error "template not found",
    createLicensee := fun n => .ok ("L" ++ toString n),
    createLicense := fun n => .ok ("N" ++ toString n) }

/-- Shared concrete properties: only the required api-key. -/
def demoProps : Props := [("api-key", "K")]

/-- The configuration parseConfig yields for demoProps. -/
def demoConfig : Config :=
  { apiKey := "K", baseUrl := "https://go.netlicensing.io/core/v2/rest/",
    defaultProductNumber := none, defaultLicenseTemplate := none,
    quantityToLicensee := false, markForTransfer := true,
    saveTransactionData := true, timeout := 30, retryCount := 3 }

deriving instance DecidableEq for Except

set_option maxRecDepth 8000 in
/-- parseConfig accepts the demo properties and yields demoConfig. -/
theorem demoConfig_eq : parseConfig demoProps = .ok demoConfig := by decide

/-- C6: an event whose type starts with the checkout-transaction prefix but
whose transaction status is not COMPLETED yields a no-op success result
tagged with the reason, raises no error, and creates no licensees and no
licenses (the client state is untouched). -/
theorem c6_status_gate_noop (B : Backend) (event : EventData) (props : Props)
    (cfg : Config) (st : ClientState) (tx : Transaction)
    (hcfg : parseConfig props = .ok cfg)
    (hev : strStartsWith (event.eventType.getD "") "checkout.transaction" = true)
    (htx : event.transaction = some tx)
    (hst : tx.status.getD "" ≠ "COMPLETED") :
    process B event props st =
      (.ok (.noop ("Transaction status \x27" ++ tx.status.getD "" ++
        "\x27 is not COMPLETED")), st) := by
  rw [process, hcfg]
  simp only [hev, if_true, htx]
  simp [hst]

/-- A PENDING transaction and its event, for the C6 witness. -/
def pendingTx : Transaction := { id := some "TX1", status := some "PENDING" }

/-- Event carrying pendingTx. -/
def pendingEvent : EventData :=
  { eventType := some "checkout.transaction.completed", transaction := some pendingTx }

/-- C6 witness: a PENDING transaction is skipped with a reason and no state
change. -/
theorem c6_witness :
    process demoBackend pendingEvent demoProps ClientState.init =
      (.ok (.noop "Transaction status \x27PENDING\x27 is not COMPLETED"),
        ClientState.init) :=
  c6_status_gate_noop demoBackend pendingEvent demoProps demoConfig
    ClientState.init pendingTx demoConfig_eq rfl rfl (by decide)

/-- C10: an event whose type starts with the checkout-transaction prefix
but whose extra mapping lacks a non-empty transaction entry makes process
raise ValueError "Missing \x27transaction\x27 in event extra data" (a terminal
error between the event-type filter and the status gate), not a no-op
success. -/
theorem c10_missing_transaction (B : Backend) (event : EventData)
    (props : Props) (cfg : Config) (st : ClientState)
    (hcfg : parseConfig props = .ok cfg)
    (hev : strStartsWith (event.eventType.getD "") "checkout.transaction" = true)
    (htx : event.transaction = none) :
    process B event props st =
      (.error (.valueError "Missing \x27transaction\x27 in event extra data"), st) := by
  rw [process, hcfg]
  simp only [hev, if_true, htx]

/-- Event with a checkout type and no transaction payload. -/
def noTxEvent : EventData := { eventType := some "checkout.transaction.completed" }

/-- C10 witness: the missing-transaction event raises the ValueError. -/
theorem c10_witness :
    process demoBackend noTxEvent demoProps ClientState.init =
      (.error (.valueError "Missing \x27transaction\x27 in event extra data"),
        ClientState.init) :=
  c10_missing_transaction demoBackend noTxEvent demoProps demoConfig
    ClientState.init demoConfig_eq rfl rfl

/-- C1 (amended): for a completed checkout transaction, process raises the
terminal aggregate error exactly when at least one per-item error occurred
AND no licensees were created; otherwise it returns a success result
carrying the deduplicated licensee numbers, the license numbers and the
per-item error list.  (An item can succeed without creating any licensee by
reusing an existing one, so "some item succeeded" does not preclude the
terminal error; the two-item example — one item missing its product number —
still yields one licensee/license plus one recorded error with overall
success, see the witness.) -/
theorem c1_aggregate_error_iff (B : Backend) (event : EventData) (props : Props)
    (cfg : Config) (st : ClientState) (tx : Transaction)
    (ls lics : List String) (errs : List ItemError) (st' : ClientState)
    (hcfg : parseConfig props = .ok cfg)
    (hev : strStartsWith (event.eventType.getD "") "checkout.transaction" = true)
    (htx : event.transaction = some tx)
    (hst : tx.status.getD "" = "COMPLETED")
    (hitems : ((tx.purchaseOrder.map PurchaseOrder.items).getD []).isEmpty = false)
    (hrun : processItems B cfg (tx.purchaseOrder.bind PurchaseOrder.customer)
        tx.billingInfo tx tx.purchaseOrder
        ((tx.purchaseOrder.map PurchaseOrder.items).getD []) st = (ls, lics, errs, st')) :
    ((process B event props st).1 = .error (.allItemsFailed errs) ↔
      (errs ≠ [] ∧ ls = [])) ∧
    (ls ≠ [] ∨ errs = [] →
      process B event props st = (.ok (.success tx.id ls.dedup lics errs), st')) := by
  have hred := process_completed B event props cfg st tx hcfg hev htx hst hitems
  rw [hrun] at hred
  dsimp only at hred
  cases ls with
  | nil =>
    cases errs with
    | nil =>
      simp only [List.isEmpty_nil, Bool.not_true, Bool.false_and, if_false,
        Bool.and_true] at hred
      refine ⟨by simp [hred], fun _ => by simp [hred]⟩
    | cons e es =>
      simp only [List.isEmpty_nil, List.isEmpty_cons, Bool.not_false, Bool.true_and,
        Bool.and_true, if_true] at hred
      refine ⟨by simp [hred], ?_⟩
      rintro (h | h)
      · exact absurd rfl h
      · exact absurd h (List.cons_ne_nil e es)
  | cons l ls2 =>
    simp only [List.isEmpty_cons, Bool.and_false, if_false] at hred
    refine ⟨by simp [hred], fun _ => by simp [hred]⟩

/-- Item missing its product number (and no configured default). -/
def missingProductItem : Item :=
  { name := some "Item B", sku := some "SKU-B", quantity := some 1,
    extra := { licenseTemplateNumber := some "T1" } }

/-- A well-formed item: product and template numbers present. -/
def normalItem : Item :=
  { name := some "Item A", sku := some "SKU-A", quantity := some 1,
    extra := { productNumber := some "P1", licenseTemplateNumber := some "T1" } }

/-- A completed transaction with one good item and one missing-product
item. -/
def c1Tx : Transaction :=
  { id := some "TX1", status := some "COMPLETED",
    purchaseOrder := some { items := [normalItem, missingProductItem] } }

/-- Event carrying c1Tx. -/
def c1Event : EventData :=
  { eventType := some "checkout.transaction.completed", transaction := some c1Tx }

/-- The per-item error recorded for missingProductItem. -/
def c1ErrB : ItemError :=
  ⟨some "SKU-B", some "Item B", "No product number for item: Item B"⟩

/-- Client state after the c1 witness run: one licensee created for the
good item, one license owned by it, nothing fetched. -/
def c1FinalState : ClientState :=
  { counter := 2,
    licensees := [⟨"L0", "P1",
      [("active", "true"), ("name", "Unknown Customer"),
       ("markedForTransfer", "true"),
       ("checkoutData", checkoutDataJson c1Tx c1Tx.purchaseOrder none)]⟩],
    licenses := [⟨"N1", "L0", "T1", [("active", "true")]⟩],
    gets := [] }

/-- C1 witness (the two-item example of the claim): one item succeeds with a
licensee and a license, the other records a per-item error, and the overall
result is success. -/
theorem c1_witness :
    process demoBackend c1Event demoProps ClientState.init =
      (.ok (.success (some "TX1") ["L0"] ["N1"] [c1ErrB]), c1FinalState) := by
  have h := c1_aggregate_error_iff demoBackend c1Event demoProps demoConfig
    ClientState.init c1Tx ["L0"] ["N1"] [c1ErrB] c1FinalState demoConfig_eq
    rfl rfl rfl rfl (by decide)
  have h2 := h.2 (Or.inl (by simp))
  simpa using h2

/-- Backend for the C1 counterexample: licensee LEX exists and belongs to
product P1, creations succeed. -/
def reuseBackend : Backend :=
  { getLicensee := fun ln =>
      if ln == "LEX" then .ok { number := "LEX", productNumber := some "P1" }
      else .error "404 licensee not found",
    getLicenseTemplate := fun _ => .error "template not found",
    createLicensee := fun n => .ok ("L" ++ toString n),
    createLicense := fun n => .ok ("N" ++ toString n) }

/-- Item referencing the existing licensee LEX of its own product. -/
def reuseItem : Item :=
  { name := some "Item A", sku := some "SKU-A", quantity := some 1,
    extra := { productNumber := some "P1", licenseTemplateNumber := some "T1",
               licenseeNumber := some "LEX" } }

/-- Completed transaction with the reuse item and a missing-product item. -/
def c1xTx : Transaction :=
  { id := some "TX1", status := some "COMPLETED",
    purchaseOrder := some { items := [reuseItem, missingProductItem] } }

/-- Event carrying c1xTx. -/
def c1xEvent : EventData :=
  { eventType := some "checkout.transaction.completed", transaction := some c1xTx }

/-- C1 counterexample: the first item SUCCEEDS (it reuses existing licensee
LEX and creates license N0 — no new licensee), the second item fails, and
process nevertheless raises the terminal aggregate error, because the
source condition is `errors and not created_licensees`, not "every item
failed".  This refutes "whenever at least one item succeeded, the call
returns a success result". -/
theorem c1_counterexample :
    (processItem reuseBackend demoConfig
        (c1xTx.purchaseOrder.bind PurchaseOrder.customer) none c1xTx
        c1xTx.purchaseOrder reuseItem ClientState.init).1 =
      .ok ⟨[], ["N0"]⟩ ∧
    (process reuseBackend c1xEvent demoProps ClientState.init).1 =
      .error (.allItemsFailed [c1ErrB]) := by
  exact ⟨rfl, rfl⟩

/-- Unit loop with a held licensee and quantity-to-licensee disabled: no
further licensee is created, one license per unit is created against the
held licensee (when the backend accepts every creation). -/
theorem processUnits_reuse (B : Backend) (leeProps : List (String × String))
    (pn tn : String) (item : Item) (cl : Nat → String)
    (hB : ∀ n, B.createLicense n = .ok (cl n)) :
    ∀ (q : Nat) (x : String) (st : ClientState) (accLees accLics : List String),
      ∃ lics st',
        processUnits B false leeProps pn tn item q (some x) st accLees accLics =
          (.ok ⟨accLees, accLics ++ lics⟩, st') ∧
        lics.length = q ∧
        st'.licensees = st.licensees ∧
        st'.gets = st.gets ∧
        st'.licenses.length = st.licenses.length + q ∧
        (∀ l ∈ st'.licenses, l ∈ st.licenses ∨ l.licenseeNumber = x) := by
  intro q
  induction q with
  | zero =>
    intro x st accLees accLics
    refine ⟨[], st, ?_, rfl, rfl, rfl, by simp, fun l hl => Or.inl hl⟩
    simp [processUnits]
  | succ q ih =>
    intro x st accLees accLics
    have hstep : processUnits B false leeProps pn tn item (q + 1) (some x) st accLees accLics =
        processUnits B false leeProps pn tn item q (some x)
          { st with counter := st.counter + 1,
                    licenses := st.licenses ++ [⟨cl st.counter, x, tn,
                      licenseProperties (B.getLicenseTemplate tn) item.extra⟩] }
          accLees (accLics ++ [cl st.counter]) := by
      rw [processUnits]
      simp only [licenseeStep, createOneLicense, clientCreateLicense, hB,
        Bool.false_eq_true, if_false]
    obtain ⟨lics2, st', h1, h2, h3, h4, h5, h6⟩ := ih x
      { st with counter := st.counter + 1,
                licenses := st.licenses ++ [⟨cl st.counter, x, tn,
                  licenseProperties (B.getLicenseTemplate tn) item.extra⟩] }
      accLees (accLics ++ [cl st.counter])
    refine ⟨cl st.counter :: lics2, st', ?_, by simp [h2], by simpa using h3,
      by simpa using h4, ?_, ?_⟩
    · rw [hstep, h1]
      simp
    · simp only [List.length_append, List.length_cons, List.length_nil] at h5
      omega
    · intro l hl
      rcases h6 l hl with h | h
      · rcases List.mem_append.mp h with h7 | h7
        · exact Or.inl h7
        · simp only [List.mem_singleton] at h7
          subst h7
          exact Or.inr rfl
      · exact Or.inr h

/-- Unit loop entered with no held licensee and quantity-to-licensee
disabled: the first unit creates exactly one licensee, every unit creates
one license against it (when the backend accepts every creation). -/
theorem processUnits_fresh (B : Backend) (leeProps : List (String × String))
    (pn tn : String) (item : Item) (cn cl : Nat → String)
    (hB1 : ∀ n, B.createLicensee n = .ok (cn n))
    (hB2 : ∀ n, B.createLicense n = .ok (cl n)) :
    ∀ (q : Nat) (st : ClientState), 1 ≤ q →
      ∃ lics st',
        processUnits B false leeProps pn tn item q none st [] [] =
          (.ok ⟨[cn st.counter], lics⟩, st') ∧
        lics.length = q ∧
        st'.licensees = st.licensees ++ [⟨cn st.counter, pn, leeProps⟩] ∧
        st'.gets = st.gets ∧
        st'.licenses.length = st.licenses.length + q ∧
        (∀ l ∈ st'.licenses, l ∈ st.licenses ∨ l.licenseeNumber = cn st.counter) := by
  intro q st hq
  obtain ⟨q, rfl⟩ : ∃ m, q = m + 1 := ⟨q - 1, by omega⟩
  · have hstep : processUnits B false leeProps pn tn item (q + 1) none st [] [] =
        processUnits B false leeProps pn tn item q (some (cn st.counter))
          { st with counter := st.counter + 2,
                    licensees := st.licensees ++ [⟨cn st.counter, pn, leeProps⟩],
                    licenses := st.licenses ++ [⟨cl (st.counter + 1), cn st.counter, tn,
                      licenseProperties (B.getLicenseTemplate tn) item.extra⟩] }
          [cn st.counter] [cl (st.counter + 1)] := by
      rw [processUnits]
      simp only [licenseeStep, clientCreateLicensee, hB1, createOneLicense,
        clientCreateLicense, hB2]
      rfl
    obtain ⟨lics2, st', h1, h2, h3, h4, h5, h6⟩ :=
      processUnits_reuse B leeProps pn tn item cl hB2 q (cn st.counter)
        { st with counter := st.counter + 2,
                  licensees := st.licensees ++ [⟨cn st.counter, pn, leeProps⟩],
                  licenses := st.licenses ++ [⟨cl (st.counter + 1), cn st.counter, tn,
                    licenseProperties (B.getLicenseTemplate tn) item.extra⟩] }
        [cn st.counter] [cl (st.counter + 1)]
    refine ⟨cl (st.counter + 1) :: lics2, st', ?_, by simp [h2], by simpa using h3,
      by simpa using h4, ?_, ?_⟩
    · rw [hstep, h1]
      simp
    · simp only [List.length_append, List.length_cons, List.length_nil] at h5
      omega
    · intro l hl
      rcases h6 l hl with h | h
      · rcases List.mem_append.mp h with h7 | h7
        · exact Or.inl h7
        · simp only [List.mem_singleton] at h7
          subst h7
          exact Or.inr rfl
      · exact Or.inr h

/-- _process_item with resolvable product/template, no referenced existing
licensee and quantity-to-licensee disabled creates exactly one licensee and
one license per unit of quantity (when the backend accepts creations). -/
theorem processItem_fresh (B : Backend) (cfg : Config) (customer : Option Customer)
    (billing : Option BillingInfo) (tx : Transaction) (po : Option PurchaseOrder)
    (item : Item) (pn tn : String) (cn cl : Nat → String) (q : Nat)
    (hqtl : cfg.quantityToLicensee = false)
    (hpn : pyOr item.extra.productNumber cfg.defaultProductNumber = some pn)
    (hpn2 : pn ≠ "")
    (htn : pyOr item.extra.licenseTemplateNumber cfg.defaultLicenseTemplate = some tn)
    (htn2 : tn ≠ "")
    (hln : item.extra.licenseeNumber = none)
    (hq : item.quantity = some q)
    (hq1 : 1 ≤ q)
    (hB1 : ∀ n, B.createLicensee n = .ok (cn n))
    (hB2 : ∀ n, B.createLicense n = .ok (cl n)) :
    ∀ st : ClientState, ∃ lics st',
      processItem B cfg customer billing tx po item st =
        (.ok ⟨[cn st.counter], lics⟩, st') ∧
      lics.length = q ∧
      st'.licensees = st.licensees ++
        [⟨cn st.counter, pn, licenseeProperties cfg customer billing tx po⟩] ∧
      st'.gets = st.gets ∧
      st'.licenses.length = st.licenses.length + q ∧
      (∀ l ∈ st'.licenses, l ∈ st.licenses ∨ l.licenseeNumber = cn st.counter) := by
  intro st
  have hred : processItem B cfg customer billing tx po item st =
      processUnits B false (licenseeProperties cfg customer billing tx po)
        pn tn item q none st [] [] := by
    rw [processItem]
    simp only [hpn, htn, hln, hq, hqtl, truthyS]
    simp [hpn2, htn2]
  obtain ⟨lics, st', h1, h2, h3, h4, h5, h6⟩ :=
    processUnits_fresh B (licenseeProperties cfg customer billing tx po)
      pn tn item cn cl hB1 hB2 q st hq1
  exact ⟨lics, st', by rw [hred, h1], h2, h3, h4, h5, h6⟩

/-- C5: for a completed transaction whose purchase order holds exactly one
item of quantity 3, with quantity-to-licensee disabled, no referenced
existing licensee, and a backend that accepts creations, provisioning
creates exactly one unique licensee and exactly three licenses, each owned
by that one licensee, and reports them in the success result. -/
theorem c5_quantity_three (B : Backend) (event : EventData) (props : Props)
    (cfg : Config) (tx : Transaction) (po : PurchaseOrder) (item : Item)
    (pn tn : String) (cn cl : Nat → String)
    (hcfg : parseConfig props = .ok cfg)
    (hev : strStartsWith (event.eventType.getD "") "checkout.transaction" = true)
    (htx : event.transaction = some tx)
    (hst : tx.status.getD "" = "COMPLETED")
    (hpo : tx.purchaseOrder = some po)
    (hitems : po.items = [item])
    (hqtl : cfg.quantityToLicensee = false)
    (hq : item.quantity = some 3)
    (hln : item.extra.licenseeNumber = none)
    (hpn : pyOr item.extra.productNumber cfg.defaultProductNumber = some pn)
    (hpn2 : pn ≠ "")
    (htn : pyOr item.extra.licenseTemplateNumber cfg.defaultLicenseTemplate = some tn)
    (htn2 : tn ≠ "")
    (hB1 : ∀ n, B.createLicensee n = .ok (cn n))
    (hB2 : ∀ n, B.createLicense n = .ok (cl n)) :
    ∃ lics st',
      process B event props ClientState.init =
        (.ok (.success tx.id [cn 0] lics []), st') ∧
      lics.length = 3 ∧
      st'.licensees.map CreatedLicensee.number = [cn 0] ∧
      st'.licenses.length = 3 ∧
      (∀ l ∈ st'.licenses, l.licenseeNumber = cn 0) := by
  obtain ⟨lics, st', h1, h2, h3, h4, h5, h6⟩ :=
    processItem_fresh B cfg (tx.purchaseOrder.bind PurchaseOrder.customer)
      tx.billingInfo tx tx.purchaseOrder item pn tn cn cl 3 hqtl hpn hpn2 htn htn2
      hln hq (by omega) hB1 hB2 ClientState.init
  have hitems2 : ((tx.purchaseOrder.map PurchaseOrder.items).getD []) = [item] := by
    rw [hpo]
    simp [hitems]
  have hrun : processItems B cfg (tx.purchaseOrder.bind PurchaseOrder.customer)
      tx.billingInfo tx tx.purchaseOrder
      ((tx.purchaseOrder.map PurchaseOrder.items).getD []) ClientState.init =
      ([cn 0], lics, [], st') := by
    rw [hitems2]
    simp only [processItems]
    rw [h1]
    simp [processItems, ClientState.init]
  have hred := process_completed B event props cfg ClientState.init tx hcfg hev htx hst
    (by rw [hitems2]; rfl)
  rw [hrun] at hred
  dsimp only at hred
  simp only [List.isEmpty_nil, Bool.not_true, Bool.false_and, if_false] at hred
  refine ⟨lics, st', ?_, h2, ?_, ?_, ?_⟩
  · rw [hred]
    simp
  · rw [h3]
    simp [ClientState.init]
  · rw [h5]
    simp [ClientState.init]
  · intro l hl
    rcases h6 l hl with h | h
    · simp [ClientState.init] at h
    · exact h

/-- The C5 witness item: quantity 3, product and template in the extra. -/
def c5Item : Item :=
  { name := some "Item A", sku := some "SKU-A", quantity := some 3,
    extra := { productNumber := some "P1", licenseTemplateNumber := some "T1" } }

/-- Purchase order holding only c5Item. -/
def c5Po : PurchaseOrder := { items := [c5Item] }

/-- Completed transaction for the C5 witness. -/
def c5Tx : Transaction :=
  { id := some "TX1", status := some "COMPLETED", purchaseOrder := some c5Po }

/-- Event carrying c5Tx. -/
def c5Event : EventData :=
  { eventType := some "checkout.transaction.completed", transaction := some c5Tx }

/-- C5 witness: the quantity-3 item yields one licensee L0 and three
licenses, each owned by L0. -/
theorem c5_witness :
    ∃ lics st',
      process demoBackend c5Event demoProps ClientState.init =
        (.ok (.success (some "TX1") ["L0"] lics []), st') ∧
      lics.length = 3 ∧
      st'.licensees.map CreatedLicensee.number = ["L0"] ∧
      st'.licenses.length = 3 ∧
      (∀ l ∈ st'.licenses, l.licenseeNumber = "L0") :=
  c5_quantity_three demoBackend c5Event demoProps demoConfig c5Tx c5Po c5Item
    "P1" "T1" (fun n => "L" ++ toString n) (fun n => "N" ++ toString n)
    demoConfig_eq rfl rfl rfl rfl rfl rfl rfl rfl rfl (by decide) rfl (by decide)
    (fun n => rfl) (fun n => rfl)

/-- C8: when an item references an existing licensee and quantity-to-
licensee is not requested, the workflow fetches that licensee; if the
fetched licensee belongs to a different product than the item resolves to,
it is discarded: a new licensee is created and the item licenses are
owned by the new licensee, not the referenced one. -/
theorem c8_existing_licensee_mismatch (B : Backend) (cfg : Config)
    (customer : Option Customer) (billing : Option BillingInfo)
    (tx : Transaction) (po : Option PurchaseOrder) (item : Item)
    (ln pn tn : String) (lee : Licensee) (cn cl : Nat → String) (q : Nat)
    (st : ClientState)
    (hqtl : cfg.quantityToLicensee = false)
    (hln : item.extra.licenseeNumber = some ln) (hln2 : ln ≠ "")
    (hpn : pyOr item.extra.productNumber cfg.defaultProductNumber = some pn)
    (hpn2 : pn ≠ "")
    (htn : pyOr item.extra.licenseTemplateNumber cfg.defaultLicenseTemplate = some tn)
    (htn2 : tn ≠ "")
    (hq : item.quantity = some q) (hq1 : 1 ≤ q)
    (hget : B.getLicensee ln = .ok lee)
    (hmis : lee.productNumber ≠ some pn)
    (hB1 : ∀ n, B.createLicensee n = .ok (cn n))
    (hB2 : ∀ n, B.createLicense n = .ok (cl n)) :
    ∃ lics st',
      processItem B cfg customer billing tx po item st =
        (.ok ⟨[cn st.counter], lics⟩, st') ∧
      st'.gets = st.gets ++ [ln] ∧
      st'.licensees = st.licensees ++
        [⟨cn st.counter, pn, licenseeProperties cfg customer billing tx po⟩] ∧
      lics.length = q ∧
      (∀ l ∈ st'.licenses, l ∈ st.licenses ∨ l.licenseeNumber = cn st.counter) := by
  have hred : processItem B cfg customer billing tx po item st =
      processUnits B false (licenseeProperties cfg customer billing tx po)
        pn tn item q none { st with gets := st.gets ++ [ln] } [] [] := by
    rw [processItem]
    simp only [hpn, htn, hln, hq, hqtl, truthyS, clientGetLicensee, hget]
    simp [hpn2, htn2, hln2, hmis, hget]
  obtain ⟨lics, st', h1, h2, h3, h4, h5, h6⟩ :=
    processUnits_fresh B (licenseeProperties cfg customer billing tx po)
      pn tn item cn cl hB1 hB2 q { st with gets := st.gets ++ [ln] } hq1
  refine ⟨lics, st', ?_, ?_, ?_, h2, ?_⟩
  · rw [hred, h1]
  · rw [h4]
  · rw [h3]
  · intro l hl
    exact h6 l hl

/-- Backend for the C8 witness: licensee LEX exists but belongs to a
different product OTHER; creations succeed. -/
def mismatchBackend : Backend :=
  { getLicensee := fun ln =>
      if ln == "LEX" then .ok { number := "LEX", productNumber := some "OTHER" }
      else .error "404 licensee not found",
    getLicenseTemplate := fun _ => .error "template not found",
    createLicensee := fun n => .ok ("L" ++ toString n),
    createLicense := fun n => .ok ("N" ++ toString n) }

/-- C8 witness: the referenced licensee LEX (product OTHER) is fetched,
discarded for product P1, and the item gets a fresh licensee L0 owning its
license. -/
theorem c8_witness :
    ∃ lics st',
      processItem mismatchBackend demoConfig none none {} none reuseItem
        ClientState.init = (.ok ⟨["L0"], lics⟩, st') ∧
      st'.gets = ["LEX"] ∧
      st'.licensees =
        [⟨"L0", "P1", licenseeProperties demoConfig none none {} none⟩] ∧
      lics.length = 1 ∧
      (∀ l ∈ st'.licenses, l ∈ ([] : List CreatedLicense) ∨ l.licenseeNumber = "L0") :=
  c8_existing_licensee_mismatch mismatchBackend demoConfig none none {} none
    reuseItem "LEX" "P1" "T1" ⟨"LEX", some "OTHER"⟩
    (fun n => "L" ++ toString n) (fun n => "N" ++ toString n) 1 ClientState.init
    rfl rfl (by decide) rfl (by decide) rfl (by decide) rfl (by decide) rfl
    (by decide) (fun n => rfl) (fun n => rfl)

end AuditFlow
